import Mathlib

/-!
# A shallow embedding of pg-boss `src/manager.js`

This file embeds the `Manager` class of the repository (its publish /
subscribe / fetch / complete / cancel operations and the expiration
monitor) as executable Lean definitions, and proves the specification
claims about them.

The database is modelled as an oracle: each statement execution is given
its `rowCount` (for modifying plans) or its `rows` (for the fetch plan)
by an explicit argument, since the SQL text itself is produced by the
external `plans` module and is opaque to the core.
-/

set_option autoImplicit false

namespace PgBoss

/-- A JavaScript value, restricted to the shapes `publish`'s argument
handling distinguishes: strings, numbers, functions, the `{name, data,
options}` job object, other (plain) objects, `null` and `undefined`. -/
inductive JsValue where
  | str (s : String)
  | num (n : Int)
  | fn
  | jobObj (name data options : JsValue)
  | plainObj
  | nullv
  | undefined
  deriving DecidableEq, Repr

/-- JavaScript `typeof`. Note `typeof null` is `"object"`. -/
def JsValue.typeofStr : JsValue → String
  | .str _ => "string"
  | .num _ => "number"
  | .fn => "function"
  | .jobObj _ _ _ => "object"
  | .plainObj => "object"
  | .nullv => "object"
  | .undefined => "undefined"

/-- JavaScript truthiness for the modelled values. -/
def JsValue.truthy : JsValue → Bool
  | .str s => s ≠ ""
  | .num n => n ≠ 0
  | .fn => true
  | .jobObj _ _ _ => true
  | .plainObj => true
  | .nullv => false
  | .undefined => false

/-- The value held by `options.startIn`: a number, an interval string, or
`null`/`undefined` (both behave identically in `insertJob`). -/
inductive StartInVal where
  | num (n : Int)
  | str (s : String)
  | nullOrMissing
  deriving DecidableEq, Repr

/-- The `options` object accepted by `publish`.  Absent numeric fields are
`none` (JavaScript `undefined`); `singletonNextSlot` is read only for
truthiness so it is a `Bool`. -/
structure PublishOptions where
  startIn : StartInVal := .nullOrMissing
  singletonSeconds : Option Int := none
  singletonMinutes : Option Int := none
  singletonHours : Option Int := none
  singletonDays : Option Int := none
  retryLimit : Option Int := none
  expireIn : Option String := none
  singletonKey : Option String := none
  singletonNextSlot : Bool := false
  deriving DecidableEq, Repr

/-- JavaScript `v > 0` for a possibly-absent number (`undefined > 0` and
`null > 0` are both `false`). -/
def jsPos : Option Int → Bool
  | some n => decide (0 < n)
  | none => false

/-- `manager.js` lines 189-192:
`(options.startIn > 0) ? '' + options.startIn
  : (typeof options.startIn == 'string') ? options.startIn : '0'`.
A numeric string compares `> 0` by coercion in JavaScript, but
`'' + s = s` for a string, so both string paths return the string. -/
def computeStartIn : StartInVal → String
  | .num n => if 0 < n then toString n else "0"
  | .str s => s
  | .nullOrMissing => "0"

/-- `manager.js` lines 194-199: the `singletonSeconds` cascade.  Each arm
fires only when its option is a number `> 0`. -/
def derivedSingletonSeconds (o : PublishOptions) : Option Int :=
  if jsPos o.singletonSeconds then o.singletonSeconds
  else if jsPos o.singletonMinutes then o.singletonMinutes.map (· * 60)
  else if jsPos o.singletonHours then o.singletonHours.map (· * 60 * 60)
  else if jsPos o.singletonDays then o.singletonDays.map (· * 60 * 60 * 24)
  else none

/-- JavaScript `v || d` for a possibly-absent string (`""` is falsy). -/
def jsOrStr (v : Option String) (d : String) : String :=
  match v with
  | some s => if s = "" then d else s
  | none => d

/-- JavaScript `v || null` for an optional string key (`""` is falsy). -/
def jsKeyOrNull (v : Option String) : Option String :=
  match v with
  | some s => if s = "" then none else some s
  | none => none

/-- JavaScript `v || 0` for a possibly-absent number used as an offset. -/
def jsOrZero (v : Option Int) : Int :=
  match v with
  | some n => if n = 0 then 0 else n
  | none => 0

/-- The parameter array passed to the `insertJob` plan (`manager.js` line
207): `[id, name, retryLimit, startIn, expireIn, data, singletonKey,
singletonSeconds, singletonOffset || 0]`. -/
structure InsertValues where
  id : String
  name : String
  retryLimit : Int
  startIn : String
  expireIn : String
  data : JsValue
  singletonKey : Option String
  singletonSeconds : Option Int
  singletonOffset : Int
  deriving DecidableEq, Repr

/-- What a run of `insertJob` produces: the resolved value (`some id` or
`null`), the final state of the caller's `options` object (which
`insertJob` mutates in place on a `singletonNextSlot` retry), and the
parameter arrays of the insert statements executed, in order. -/
structure InsertOutcome where
  result : Option String
  finalOptions : PublishOptions
  calls : List InsertValues
  deriving DecidableEq, Repr

/-- Re-wrap a nullable number as the value stored back into
`options.startIn` by the retry (`options.startIn = singletonSeconds`). -/
def startInOfNullable : Option Int → StartInVal
  | some n => .num n
  | none => .nullOrMissing

/-- `manager.js` lines 188-226, the inner `insertJob` function.  `db k`
is the `rowCount` reported by the `k`-th insert statement of this publish
call, and `idGen k` the id produced by the uuid factory for it.  The
recursion happens at most once because the retry stores
`singletonNextSlot = false` back into the options. -/
def insertJob (name : String) (data : JsValue) (options : PublishOptions)
    (singletonOffset : Option Int) (db : Nat → Nat) (idGen : Nat → String)
    (k : Nat) : InsertOutcome :=
  let startIn := computeStartIn options.startIn
  let singletonSeconds := derivedSingletonSeconds options
  let id := idGen k
  let retryLimit := (options.retryLimit).getD 0
  let expireIn := jsOrStr options.expireIn "15 minutes"
  let singletonKey := jsKeyOrNull options.singletonKey
  let values : InsertValues :=
    ⟨id, name, retryLimit, startIn, expireIn, data, singletonKey,
      singletonSeconds, jsOrZero singletonOffset⟩
  if db k = 1 then
    ⟨some id, options, [values]⟩
  else if h : options.singletonNextSlot = false then
    ⟨none, options, [values]⟩
  else
    let options' : PublishOptions :=
      { options with startIn := startInOfNullable singletonSeconds,
                     singletonNextSlot := false }
    let rest := insertJob name data options' singletonSeconds db idGen (k + 1)
    ⟨rest.result, rest.finalOptions, values :: rest.calls⟩
termination_by (if options.singletonNextSlot then 1 else 0)
decreasing_by
  simp_all

/-- The unpacked `(name, data, options)` triple that `publish`'s `getArgs`
resolves with. -/
structure PublishArgs where
  name : JsValue
  data : JsValue
  options : JsValue
  deriving DecidableEq, Repr

/-- JavaScript indexing into the spread `args` array: out-of-range reads
yield `undefined`. -/
def jsIndex (args : List JsValue) (i : Nat) : JsValue :=
  args.getD i .undefined

/-- `manager.js` lines 150-186, the inner `getArgs` of `publish`.
The positional branch fires when `args[0]` is a string and validates the
payload; the object branch fires when `typeof args[0] == 'object'`
(including `null`) and unpacks `{name, data, options}` without a payload
check; any other first argument leaves `name` undefined.  The trailing
asserts run in source order: `options = options || {}`, then
`assert(name)`, then `assert(typeof options == 'object')`. -/
def publishGetArgs (args : List JsValue) : Except String PublishArgs :=
  let a0 := jsIndex args 0
  let branch : Except String (JsValue × JsValue × JsValue) :=
    if a0.typeofStr = "string" then
      let data := jsIndex args 1
      if data.typeofStr = "function" then
        .error "publish() cannot accept a function as the payload.  Did you intend to use subscribe()?"
      else
        .ok (a0, data, jsIndex args 2)
    else if a0.typeofStr = "object" then
      if args.length ≠ 1 then
        .error "publish object API only accepts 1 argument"
      else if a0.truthy = false then
        .error "boss requires all jobs to have a name"
      else
        match a0 with
        | .jobObj n d o => .ok (n, d, o)
        | _ => .ok (.undefined, .undefined, .undefined)
    else
      .ok (.undefined, .undefined, .undefined)
  match branch with
  | .error e => .error e
  | .ok (name, data, options) =>
    let options := if options.truthy then options else .plainObj
    if name.truthy = false then
      .error "boss requires all jobs to have a name"
    else if options.typeofStr ≠ "object" then
      .error "options should be an object"
    else
      .ok ⟨name, data, options⟩

/-- A job row as returned by the `fetchNextJob` plan. -/
structure Job where
  id : String
  name : String
  data : JsValue
  deriving DecidableEq, Repr

/-- `manager.js` lines 230-242: `fetch(name)` applied to the rows the
executor returned.  An empty result set yields `null`; otherwise the
first row is returned with its `name` overwritten by the requested
name. -/
def fetch (name : String) (rows : List Job) : Option Job :=
  match rows with
  | [] => none
  | j :: _ => some { j with name := name }

/-- `manager.js` lines 244-250: `complete(id)` applied to the reported
`rowCount`.  The assert fires unless exactly one row was updated. -/
def complete (id : String) (rowCount : Nat) : Except String String :=
  if rowCount = 1 then .ok id
  else .error ("Job " ++ id ++ " could not be completed.")

/-- `manager.js` lines 252-258: `cancel(id)`, same shape as `complete`
against the cancel plan. -/
def cancel (id : String) (rowCount : Nat) : Except String String :=
  if rowCount = 1 then .ok id
  else .error ("Job " ++ id ++ " could not be cancelled.")

/-- Modelled from the spec (the `plans`/store module is not under `src/`):
`completeJob(id) → 0 or 1` (§6), and a not-found arises when
"`complete`/`cancel` affected zero rows" (§7), i.e. the update matches
one row while the job is still completable and zero rows once it has
already been completed. -/
def storeCompleteRowCount (alreadyCompleted : Bool) : Nat :=
  if alreadyCompleted then 0 else 1

/-- The outcome of one `expire()` database call: the `rowCount` of the
expire plan, or a rejection. -/
inductive SweepResult where
  | ok (rowCount : Nat)
  | err (e : String)
  deriving DecidableEq, Repr

/-- Events emitted by the Manager (an `EventEmitter`). -/
inductive Event where
  | expired (n : Nat)
  | job (j : Job)
  | error (e : String)
  deriving DecidableEq, Repr

/-- `manager.js` lines 31-37: a successful `expire()` emits
`expired rowCount` when the count is truthy (non-zero). -/
def expireEvents (n : Nat) : List Event :=
  if n ≠ 0 then [.expired n] else []

/-- What `monitor()` leaves behind after its initial sweep: the events
emitted, whether the recurring timer was armed, and the rejection of the
returned promise, if any. -/
structure MonitorInit where
  events : List Event
  armed : Bool
  rejection : Option String
  deriving DecidableEq, Repr

/-- `manager.js` lines 26-48, the initial path `expire().then(init)`.
A fulfilled first sweep emits its `expired` event and runs `init`, which
arms the timer unless the stopped flag is set.  A rejected first sweep
has no `.catch`: `init` never runs and the rejection propagates to the
caller of `monitor()`. -/
def monitorStart (stopped : Bool) : SweepResult → MonitorInit
  | .ok n => ⟨expireEvents n, !stopped, none⟩
  | .err e => ⟨[], false, some e⟩

/-- `manager.js` lines 44-46, one recurring tick:
`expire().catch(error => emit('error', error)).then(init)`.  The tick
emits either the `expired` event or an `error` event, and `init` re-arms
the timer unless the stopped flag is set. -/
def monitorTick (stopped : Bool) : SweepResult → List Event × Bool
  | .ok n => (expireEvents n, !stopped)
  | .err e => ([.error e], !stopped)

/-- The recurring half of the monitor: process tick sweeps in order as
long as the timer keeps getting re-armed.  `stoppedAt i` is the value of
the stopped flag when tick `i` fires; the returned flag says whether a
timer is still armed afterwards. -/
def monitorLoop (stoppedAt : Nat → Bool) (i : Nat) :
    List SweepResult → List Event × Bool
  | [] => ([], true)
  | t :: ts =>
    let (evs, armed) := monitorTick (stoppedAt i) t
    if armed then
      let (evs', armed') := monitorLoop stoppedAt (i + 1) ts
      (evs ++ evs', armed')
    else (evs, false)

/-- A whole `monitor()` run: the initial sweep followed by the recurring
ticks, which only happen if the initial path armed the timer. -/
def monitorRun (stoppedAt : Nat → Bool) (first : SweepResult)
    (ticks : List SweepResult) : MonitorInit :=
  let s0 := monitorStart (stoppedAt 0) first
  if s0.armed then
    let (evs, armed) := monitorLoop stoppedAt 1 ticks
    ⟨s0.events ++ evs, armed, s0.rejection⟩
  else s0

/-- The configuration each `Worker` is constructed with (`manager.js`
lines 126-132): the subscription name (which the shared fetcher
`() => self.fetch(name)` closes over) and the polling interval.  All
workers of one `register` call receive the same record. -/
structure WorkerConfig where
  name : String
  interval : Option Int
  deriving DecidableEq, Repr

/-- The Manager's own mutable state, as far as `stop`/`close`/`monitor`
touch it: the worker registry, the stopped flag, and whether the
expiration timer is armed. -/
structure ManagerState where
  workers : List WorkerConfig
  stopped : Bool
  timerArmed : Bool
  deriving DecidableEq, Repr

/-- `manager.js` lines 50-54: `close()` stops every worker and clears the
registry. -/
def close (s : ManagerState) : ManagerState :=
  { s with workers := [] }

/-- `manager.js` lines 56-63: `stop()` closes, sets the stopped flag and
clears any pending expiration timer. -/
def stop (s : ManagerState) : ManagerState :=
  let s := close s
  { s with stopped := true, timerArmed := false }

/-- `manager.js` lines 39-47: the `init` step of the monitor.  When the
stopped flag is set it returns without scheduling; otherwise it arms the
expiration timer. -/
def monitorInitStep (s : ManagerState) : ManagerState :=
  if s.stopped then s else { s with timerArmed := true }

/-- The `options` object accepted by `subscribe`. -/
structure SubscribeOptions where
  teamSize : Option Int := none
  newJobCheckInterval : Option Int := none
  newJobCheckIntervalSeconds : Option Int := none
  deriving DecidableEq, Repr

/-- A JavaScript value in a `subscribe` argument position: a function, an
options object, `null`, a number, or `undefined` (absent). -/
inductive SubVal where
  | func
  | obj (o : SubscribeOptions)
  | nullv
  | num (n : Int)
  | undefined
  deriving DecidableEq, Repr

/-- Truthiness of a `subscribe` argument value. -/
def SubVal.truthy : SubVal → Bool
  | .func => true
  | .obj _ => true
  | .nullv => false
  | .num n => n ≠ 0
  | .undefined => false

/-- JavaScript `typeof` for a `subscribe` argument value. -/
def SubVal.typeofStr : SubVal → String
  | .func => "function"
  | .obj _ => "object"
  | .nullv => "object"
  | .num _ => "number"
  | .undefined => "undefined"

/-- JavaScript `v || 1`, as in `options.teamSize = options.teamSize || 1`
(`0` is falsy, so a given team size of `0` becomes `1`). -/
def jsOrOne (v : Option Int) : Int :=
  match v with
  | some n => if n = 0 then 1 else n
  | none => 1

/-- Modelled from the spec (the `Attorney` module is not under `src/`):
`applyNewJobCheckInterval(options)` "accepts either `newJobCheckInterval`
(milliseconds) or `newJobCheckIntervalSeconds` (seconds), enforces
allowed ranges, and writes back a canonical millisecond value" (§4.4).
The concrete range bounds and the precedence between the two keys are
not stated; the model requires each given value to be positive and lets
the seconds form determine the canonical value when present. -/
def applyNewJobCheckInterval (o : SubscribeOptions) : Except String SubscribeOptions :=
  if o.newJobCheckInterval.any (fun ms => decide (ms ≤ 0)) then
    .error "invalid newJobCheckInterval"
  else if o.newJobCheckIntervalSeconds.any (fun s => decide (s ≤ 0)) then
    .error "invalid newJobCheckIntervalSeconds"
  else
    match o.newJobCheckIntervalSeconds with
    | some s => .ok { o with newJobCheckInterval := some (s * 1000) }
    | none => .ok o

/-- The normalized outcome of `subscribe`'s `getArgs`: the team size
after `|| 1` and the polling interval the workers will use. -/
structure SubNormalized where
  teamSize : Int
  newJobCheckInterval : Option Int
  deriving DecidableEq, Repr

/-- `manager.js` lines 73-106, the inner `getArgs` of `subscribe`.
`cfgInterval` is `self.config.newJobCheckInterval`.  One argument means
`(callback, options = {})`; two mean `(options || {}, callback)`; any
other arity leaves the callback undefined.  Asserts run in source order:
name, callback is a function, truthy options are an object.  Interval
normalization goes through Attorney exactly when either interval key is
present in the options, and otherwise copies the Manager config. -/
def subscribeGetArgs (cfgInterval : Option Int) (name : String)
    (args : List SubVal) : Except String SubNormalized :=
  if name = "" then .error "boss requires all jobs to have a name"
  else
    let (options, callback) : SubVal × SubVal :=
      match args with
      | [cb] => (.obj {}, cb)
      | [o, cb] => (if o.truthy then o else .obj {}, cb)
      | _ => (.undefined, .undefined)
    if callback.typeofStr ≠ "function" then
      .error "expected a callback function"
    else if options.truthy && options.typeofStr ≠ "object" then
      .error "expected config to be an object"
    else
      let o := match options with
        | .obj o => o
        | _ => ({} : SubscribeOptions)
      if o.newJobCheckInterval.isSome || o.newJobCheckIntervalSeconds.isSome then
        match applyNewJobCheckInterval o with
        | .error e => .error e
        | .ok o' => .ok ⟨jsOrOne o.teamSize, o'.newJobCheckInterval⟩
      else
        .ok ⟨jsOrOne o.teamSize, cfgInterval⟩

/-- `manager.js` lines 108-138, the inner `register` of `subscribe`:
the loop `for(w = 0; w < options.teamSize; w++)` constructs and starts
one worker per iteration, all from the same `workerConfig` record. -/
def register (name : String) (n : SubNormalized) : List WorkerConfig :=
  List.replicate n.teamSize.toNat ⟨name, n.newJobCheckInterval⟩

/-- `manager.js` lines 65-141: `subscribe` resolves `getArgs` and then
registers the workers; the list is what gets appended to the Manager's
worker registry. -/
def subscribe (cfgInterval : Option Int) (name : String)
    (args : List SubVal) : Except String (List WorkerConfig) :=
  (subscribeGetArgs cfgInterval name args).map (register name)

/-- The claim's reading of the singleton algebra (spec §4.1): the first
non-null of `singletonSeconds`, `singletonMinutes×60`,
`singletonHours×3600`, `singletonDays×86400`.  Kept separate from the
source-derived `derivedSingletonSeconds` so the two can be compared. -/
def firstNonNullSingleton (o : PublishOptions) : Option Int :=
  [o.singletonSeconds, o.singletonMinutes.map (· * 60),
    o.singletonHours.map (· * 3600), o.singletonDays.map (· * 86400)].findSome? id

/-- The amended reading: the first of the four scaled options whose value
is positive, null when none is. -/
def firstPositiveSingleton (o : PublishOptions) : Option Int :=
  [o.singletonSeconds, o.singletonMinutes.map (· * 60),
    o.singletonHours.map (· * 3600), o.singletonDays.map (· * 86400)].findSome?
    (fun c => c.bind fun x => if 0 < x then some x else none)

/-! ## Theorems -/

/-- C1: For every publish call whose insert plan reports `rowCount = 1`,
publish resolves with the freshly generated id; for every publish call
with a `singletonKey` whose insert reports a `rowCount` other than `1`
and whose options do not set `singletonNextSlot`, publish resolves with
`null`. -/
theorem publish_insert_result (name : String) (data : JsValue)
    (options : PublishOptions) (off : Option Int) (db : Nat → Nat)
    (idGen : Nat → String) (k : Nat) :
    (db k = 1 → (insertJob name data options off db idGen k).result = some (idGen k)) ∧
    ((options.singletonKey).isSome → db k ≠ 1 → options.singletonNextSlot = false →
      (insertJob name data options off db idGen k).result = none) := by
  constructor
  · intro h
    rw [insertJob]
    simp [h]
  · intro _ hdb hns
    rw [insertJob]
    simp [hdb, hns]

/-- Witness for C1 at a concrete publish: a `rowCount` of `1` resolves
with the generated id, and a suppressed singleton insert without
`singletonNextSlot` resolves with `null`. -/
theorem publish_insert_result_witness :
    (insertJob "email" .plainObj { singletonKey := some "k" } none
        (fun _ => 1) (fun _ => "id0") 0).result = some "id0" ∧
    (insertJob "email" .plainObj { singletonKey := some "k" } none
        (fun _ => 0) (fun _ => "id0") 0).result = none :=
  ⟨(publish_insert_result "email" .plainObj { singletonKey := some "k" } none
      (fun _ => 1) (fun _ => "id0") 0).1 rfl,
   (publish_insert_result "email" .plainObj { singletonKey := some "k" } none
      (fun _ => 0) (fun _ => "id0") 0).2 (by decide) (by decide) rfl⟩

/-- C2: For every publish call whose insert is suppressed
(`rowCount ≠ 1`) and whose options set `singletonNextSlot`, publish
retries the insert exactly once — the second statement carries
`startIn := singletonSeconds` and `singletonOffset := singletonSeconds`
(not `2×singletonSeconds`) and the retry runs with `singletonNextSlot`
disabled — so a second suppression yields `null` rather than a further
retry. -/
theorem publish_next_slot_retry (name : String) (data : JsValue)
    (options : PublishOptions) (off : Option Int) (db : Nat → Nat)
    (idGen : Nat → String) (k : Nat)
    (hns : options.singletonNextSlot = true) (hdb : db k ≠ 1) :
    (insertJob name data options off db idGen k).calls.length = 2 ∧
    (∃ v, (insertJob name data options off db idGen k).calls.getLast? = some v ∧
      v.singletonOffset = jsOrZero (derivedSingletonSeconds options) ∧
      v.startIn = computeStartIn (startInOfNullable (derivedSingletonSeconds options)) ∧
      v.singletonSeconds = derivedSingletonSeconds options ∧
      v.id = idGen (k + 1)) ∧
    (insertJob name data options off db idGen k).finalOptions.singletonNextSlot = false ∧
    (db (k + 1) ≠ 1 → (insertJob name data options off db idGen k).result = none) ∧
    (db (k + 1) = 1 →
      (insertJob name data options off db idGen k).result = some (idGen (k + 1))) := by
  rw [insertJob]
  simp only [hns, hdb, if_false, reduceDIte]
  rw [insertJob]
  by_cases h2 : db (k + 1) = 1 <;>
    simp [h2, hdb, hns, derivedSingletonSeconds]

/-- Witness for C2: a publish with `singletonSeconds = 60` and
`singletonNextSlot` whose two inserts both report `rowCount = 0`
executes exactly two inserts, the second with offset `60`, start
`"60"`, and resolves `null`. -/
theorem publish_next_slot_retry_witness :
    (insertJob "tick" .plainObj
        { singletonSeconds := some 60, singletonKey := some "k",
          singletonNextSlot := true } none
        (fun _ => 0) (fun j => toString j) 0).calls.length = 2 ∧
    (∃ v, (insertJob "tick" .plainObj
        { singletonSeconds := some 60, singletonKey := some "k",
          singletonNextSlot := true } none
        (fun _ => 0) (fun j => toString j) 0).calls.getLast? = some v ∧
      v.singletonOffset = 60 ∧ v.startIn = "60" ∧
      v.singletonSeconds = some 60 ∧ v.id = "1") ∧
    (insertJob "tick" .plainObj
        { singletonSeconds := some 60, singletonKey := some "k",
          singletonNextSlot := true } none
        (fun _ => 0) (fun j => toString j) 0).result = none := by
  have h := publish_next_slot_retry "tick" .plainObj
    { singletonSeconds := some 60, singletonKey := some "k",
      singletonNextSlot := true } none
    (fun _ => 0) (fun j => toString j) 0 rfl (by decide)
  refine ⟨h.1, ?_, h.2.2.2.1 (by decide)⟩
  obtain ⟨v, hv, h1, h2, h3, h4⟩ := h.2.1
  exact ⟨v, hv, by simpa [derivedSingletonSeconds, jsPos, jsOrZero] using h1,
    by simpa [derivedSingletonSeconds, jsPos, computeStartIn, startInOfNullable] using h2,
    by simpa [derivedSingletonSeconds, jsPos] using h3, h4⟩

/-- C10: For every publish call with `singletonNextSlot` set whose first
insert is suppressed, `insertJob` mutates the caller's options object in
place: afterwards `options.startIn` holds the derived `singletonSeconds`
and `options.singletonNextSlot` is `false` (all other fields are
untouched). -/
theorem publish_mutates_options (name : String) (data : JsValue)
    (options : PublishOptions) (off : Option Int) (db : Nat → Nat)
    (idGen : Nat → String) (k : Nat)
    (hns : options.singletonNextSlot = true) (hdb : db k ≠ 1) :
    (insertJob name data options off db idGen k).finalOptions =
      { options with
          startIn := startInOfNullable (derivedSingletonSeconds options),
          singletonNextSlot := false } := by
  rw [insertJob]
  simp only [hns, hdb, if_false, reduceDIte]
  rw [insertJob]
  by_cases h2 : db (k + 1) = 1 <;> simp [h2]

/-- Witness for C10: after a suppressed `singletonNextSlot` publish with
`singletonMinutes = 1`, the caller's options hold `startIn = 60` and
`singletonNextSlot = false`. -/
theorem publish_mutates_options_witness :
    (insertJob "tick" .plainObj
        { singletonMinutes := some 1, singletonNextSlot := true } none
        (fun _ => 0) (fun _ => "x") 0).finalOptions =
      { singletonMinutes := some 1, startIn := .num 60,
        singletonNextSlot := false } := by
  have h := publish_mutates_options "tick" .plainObj
    { singletonMinutes := some 1, singletonNextSlot := true } none
    (fun _ => 0) (fun _ => "x") 0 rfl (by decide)
  simpa [derivedSingletonSeconds, jsPos, startInOfNullable] using h

/-- C3, counterexample: the claim says a callable payload fails with an
invalid-argument error in both call forms, but the single-object form
`publish({name, data, options})` performs no payload check: with a
function as `data` it resolves the unpacked triple instead of
rejecting. -/
theorem publish_object_form_accepts_callable :
    publishGetArgs [.jobObj (.str "x") .fn .plainObj] =
      .ok ⟨.str "x", .fn, .plainObj⟩ ∧
    publishGetArgs [.str "x", .fn, .plainObj] =
      .error "publish() cannot accept a function as the payload.  Did you intend to use subscribe()?" :=
  ⟨rfl, rfl⟩

/-- C3, amended: a missing or empty name fails either form with the
invalid-argument error; a callable payload fails the positional form
(the single-object form does not validate the payload); and for
non-callable payloads the two forms behave identically after
unpacking. -/
theorem publish_getargs_validation (d o : JsValue) (s : String) :
    (publishGetArgs [.undefined, d, o] = .error "boss requires all jobs to have a name") ∧
    (d.typeofStr ≠ "function" →
      publishGetArgs [.str "", d, o] = .error "boss requires all jobs to have a name") ∧
    (publishGetArgs [.jobObj .undefined d o] = .error "boss requires all jobs to have a name") ∧
    (publishGetArgs [.str s, .fn, o] =
      .error "publish() cannot accept a function as the payload.  Did you intend to use subscribe()?") ∧
    (d.typeofStr ≠ "function" →
      publishGetArgs [.jobObj (.str s) d o] = publishGetArgs [.str s, d, o]) := by
  refine ⟨?_, ?_, ?_, ?_, ?_⟩
  · cases d <;> simp [publishGetArgs, jsIndex, JsValue.typeofStr, JsValue.truthy]
  · intro hd
    cases d <;> simp_all [publishGetArgs, jsIndex, JsValue.typeofStr, JsValue.truthy]
  · cases d <;> simp [publishGetArgs, jsIndex, JsValue.typeofStr, JsValue.truthy]
  · simp [publishGetArgs, jsIndex, JsValue.typeofStr]
  · intro hd
    cases d <;> simp_all [publishGetArgs, jsIndex, JsValue.typeofStr, JsValue.truthy]

/-- Witness for C3 (amended) at concrete arguments: an empty name is
rejected, and the object form matches the positional form on a
non-callable payload. -/
theorem publish_getargs_validation_witness :
    (publishGetArgs [.str "", .num 1, .plainObj] =
      .error "boss requires all jobs to have a name") ∧
    (publishGetArgs [.jobObj (.str "x") (.num 1) .plainObj] =
      publishGetArgs [.str "x", .num 1, .plainObj]) :=
  ⟨(publish_getargs_validation (.num 1) .plainObj "x").2.1 (by decide),
   (publish_getargs_validation (.num 1) .plainObj "x").2.2.2.2 (by decide)⟩

/-- C4: `complete(id)` resolves with exactly that id when the store
reports one row updated and otherwise fails with a not-found error whose
message includes the id; `cancel(id)` behaves identically against the
cancel plan; and, with the store reporting zero rows for an
already-completed job, a second `complete(id)` fails with not-found. -/
theorem complete_cancel_row_contract (id : String) (rc : Nat) :
    (rc = 1 → complete id rc = .ok id ∧ cancel id rc = .ok id) ∧
    (rc ≠ 1 →
      complete id rc = .error ("Job " ++ id ++ " could not be completed.") ∧
      cancel id rc = .error ("Job " ++ id ++ " could not be cancelled.")) ∧
    complete id (storeCompleteRowCount true) =
      .error ("Job " ++ id ++ " could not be completed.") := by
  refine ⟨fun h => ?_, fun h => ?_, ?_⟩
  · simp [complete, cancel, h]
  · simp [complete, cancel, h]
  · simp [complete, storeCompleteRowCount]

/-- Witness for C4 at `id = "j1"`: one updated row resolves the id, zero
updated rows (the already-completed case) fail with the not-found
message naming `"j1"`. -/
theorem complete_cancel_row_contract_witness :
    (complete "j1" 1 = .ok "j1" ∧ cancel "j1" 1 = .ok "j1") ∧
    complete "j1" 0 = .error "Job j1 could not be completed." :=
  ⟨(complete_cancel_row_contract "j1" 1).1 rfl,
   ((complete_cancel_row_contract "j1" 0).2.1 (by decide)).1⟩

/-- C5: For every `fetch(name)` call, an empty result set yields `null`;
otherwise the result is the first returned row with its `name` field
overwritten by the requested name. -/
theorem fetch_first_row_named (name : String) (rows : List Job) :
    (rows = [] → fetch name rows = none) ∧
    (∀ j tl, rows = j :: tl → fetch name rows = some { j with name := name }) := by
  constructor
  · rintro rfl; rfl
  · rintro j tl rfl; rfl

/-- Witness for C5: fetching from an empty result set yields `null`, and
from a result set whose first row carries a different name yields that
row renamed to the requested name. -/
theorem fetch_first_row_named_witness :
    fetch "email" [] = none ∧
    fetch "email" [⟨"j1", "other", .plainObj⟩, ⟨"j2", "other", .plainObj⟩] =
      some ⟨"j1", "email", .plainObj⟩ :=
  ⟨(fetch_first_row_named "email" []).1 rfl,
   (fetch_first_row_named "email" [⟨"j1", "other", .plainObj⟩, ⟨"j2", "other", .plainObj⟩]).2
      ⟨"j1", "other", .plainObj⟩ [⟨"j2", "other", .plainObj⟩] rfl⟩

/-- C6, counterexample: the claim extends the error handling to the
initial sweep, but `expire().then(init)` has no `.catch` — an error in
the initial sweep emits no `error` event, never arms the timer, and
escapes as the rejection of the promise `monitor()` returns. -/
theorem monitor_initial_error_escapes :
    ¬ (Event.error "boom" ∈ (monitorStart false (SweepResult.err "boom")).events ∧
        (monitorStart false (SweepResult.err "boom")).armed = true) ∧
    (monitorStart false (SweepResult.err "boom")).rejection = some "boom" := by
  decide

/-- C6, amended: every recurring-tick sweep error is emitted as an
`error` event and the monitor re-arms unless stopped — over any sequence
of never-stopped ticks the monitor emits each sweep's events in order
and stays armed — while an error in the initial sweep emits nothing,
arms nothing, and rejects the promise returned by `monitor()`. -/
theorem monitor_tick_errors_survive (e : String) (ts : List SweepResult) (i : Nat) :
    monitorTick false (.err e) = ([.error e], true) ∧
    monitorTick true (.err e) = ([.error e], false) ∧
    monitorLoop (fun _ => false) i ts =
      (ts.flatMap (fun t => (monitorTick false t).1), true) ∧
    monitorRun (fun _ => false) (.err e) ts = ⟨[], false, some e⟩ := by
  refine ⟨rfl, rfl, ?_, rfl⟩
  induction ts generalizing i with
  | nil => rfl
  | cons t ts ih =>
    cases t <;> simp [monitorLoop, monitorTick, ih]

/-- C7: `stop()` is idempotent, leaves no expiration timer armed, and
once stopped every subsequent monitor `init` step returns without
scheduling a timer. -/
theorem stop_idempotent_no_timer (s : ManagerState) :
    stop (stop s) = stop s ∧
    (stop s).timerArmed = false ∧
    (∀ n, monitorInitStep^[n] (stop s) = stop s) := by
  refine ⟨rfl, rfl, ?_⟩
  intro n
  induction n with
  | zero => rfl
  | succ n ih =>
    rw [Function.iterate_succ_apply', ih]
    simp [monitorInitStep, stop, close]

/-- C8, counterexample: the singleton cascade tests each option with
`> 0`, not for null-ness; with `singletonSeconds = 0` (non-null) and
`singletonMinutes = 1`, the code derives `60` while the claim's
first-non-null reading derives `0`. -/
theorem singleton_seconds_zero_counterexample :
    derivedSingletonSeconds
        { singletonSeconds := some 0, singletonMinutes := some 1 } = some 60 ∧
    firstNonNullSingleton
        { singletonSeconds := some 0, singletonMinutes := some 1 } = some 0 ∧
    derivedSingletonSeconds
        { singletonSeconds := some 0, singletonMinutes := some 1 } ≠
      firstNonNullSingleton
        { singletonSeconds := some 0, singletonMinutes := some 1 } := by
  refine ⟨?_, ?_, ?_⟩ <;> decide

/-- C8, amended: the derived `singletonSeconds` equals the first
*positive* value among `singletonSeconds`, `singletonMinutes×60`,
`singletonHours×3600`, `singletonDays×86400`, and is null when none of
them is positive. -/
theorem singleton_seconds_first_positive (o : PublishOptions) :
    derivedSingletonSeconds o = firstPositiveSingleton o := by
  obtain ⟨st, s, m, h, d, rl, ei, sk, sns⟩ := o
  simp only [derivedSingletonSeconds, firstPositiveSingleton, jsPos]
  cases s <;> cases m <;> cases h <;> cases d <;>
    simp [List.findSome?] <;> split_ifs <;> simp_all <;> omega

/-- C9, counterexample: `options.teamSize = options.teamSize || 1`
treats a supplied `teamSize` of `0` as falsy, so a successful
`subscribe` with `teamSize = 0` constructs one worker, not zero as the
claim's "exactly teamSize Worker instances" requires. -/
theorem subscribe_teamsize_zero_counterexample :
    subscribe (some 5000) "q" [.obj { teamSize := some 0 }, .func] =
      .ok [⟨"q", some 5000⟩] ∧
    ([(⟨"q", some 5000⟩ : WorkerConfig)]).length ≠ 0 := by
  exact ⟨rfl, by decide⟩

/-- C9, amended: every successful `subscribe(name, [options], callback)`
call constructs and starts `(teamSize || 1).toNat` Worker instances (a
supplied `teamSize` of `0`, like an absent one, yields one worker), all
sharing one worker config whose fetcher polls the subscribed name; the
interval is the options' `newJobCheckInterval` when it alone is given,
the canonical `newJobCheckIntervalSeconds × 1000` when the seconds form
is given, and the Manager config's `newJobCheckInterval` when neither
is present. -/
theorem subscribe_registers_workers (cfg : Option Int) (name : String)
    (o : SubscribeOptions) (ws : List WorkerConfig)
    (h : subscribe cfg name [.obj o, .func] = .ok ws) :
    ws.length = (jsOrOne o.teamSize).toNat ∧
    (∀ w ∈ ws, w.name = name) ∧
    (∀ w w', w ∈ ws → w' ∈ ws → w = w') ∧
    (o.newJobCheckInterval = none → o.newJobCheckIntervalSeconds = none →
      ∀ w ∈ ws, w.interval = cfg) ∧
    (∀ ms, o.newJobCheckInterval = some ms → o.newJobCheckIntervalSeconds = none →
      ∀ w ∈ ws, w.interval = some ms) ∧
    (∀ sec, o.newJobCheckIntervalSeconds = some sec →
      ∀ w ∈ ws, w.interval = some (sec * 1000)) ∧
    subscribe cfg name [.func] = .ok [⟨name, cfg⟩] := by
  have hn : ¬ name = "" := by
    intro hn
    rw [subscribe, subscribeGetArgs, if_pos hn] at h
    exact Except.noConfusion h
  have hone : subscribe cfg name [.func] = .ok [⟨name, cfg⟩] := by
    simp [subscribe, subscribeGetArgs, if_neg hn, SubVal.truthy, SubVal.typeofStr,
      register, jsOrOne, Except.map]
  have hmem : ∀ (intr : Option Int) (w : WorkerConfig),
      w ∈ register name ⟨jsOrOne o.teamSize, intr⟩ → w = ⟨name, intr⟩ := by
    intro intr w hw
    exact List.eq_of_mem_replicate hw
  have hprops : ∀ intr : Option Int, register name ⟨jsOrOne o.teamSize, intr⟩ = ws →
      ws.length = (jsOrOne o.teamSize).toNat ∧
      (∀ w ∈ ws, w.name = name) ∧
      (∀ w w', w ∈ ws → w' ∈ ws → w = w') ∧
      (∀ w ∈ ws, w.interval = intr) := by
    intro intr hws
    subst hws
    refine ⟨by simp [register], ?_, ?_, ?_⟩
    · intro w hw
      rw [hmem intr w hw]
    · intro w w' hw hw'
      rw [hmem intr w hw, hmem intr w' hw']
    · intro w hw
      rw [hmem intr w hw]
  obtain ⟨ts, ms, sec⟩ := o
  simp only [subscribe, subscribeGetArgs, if_neg hn, Except.map] at h
  cases ms with
  | none =>
    cases sec with
    | none =>
      simp [SubVal.truthy, SubVal.typeofStr] at h
      obtain ⟨hlen, hname, hshare, hintr⟩ := hprops cfg h
      refine ⟨hlen, hname, hshare, fun _ _ => hintr, ?_, ?_, hone⟩
      · intro ms' hms'
        exact absurd hms' (by simp)
      · intro sc' hsc'
        exact absurd hsc' (by simp)
    | some sc =>
      simp [SubVal.truthy, SubVal.typeofStr, applyNewJobCheckInterval] at h
      split_ifs at h with hrange
      simp at h
      obtain ⟨hlen, hname, hshare, hintr⟩ := hprops (some (sc * 1000)) h
      refine ⟨hlen, hname, hshare, ?_, ?_, ?_, hone⟩
      · intro _ hsec
        exact absurd hsec (by simp)
      · intro ms' _ hsec
        exact absurd hsec (by simp)
      · intro sc' hsc' w hw
        have hsc'' : sc' = sc := by simpa using hsc'.symm
        subst hsc''
        exact hintr w hw
  | some m =>
    cases sec with
    | none =>
      simp [SubVal.truthy, SubVal.typeofStr, applyNewJobCheckInterval] at h
      split_ifs at h with hrange
      simp at h
      obtain ⟨hlen, hname, hshare, hintr⟩ := hprops (some m) h
      refine ⟨hlen, hname, hshare, ?_, ?_, ?_, hone⟩
      · intro hms
        exact absurd hms (by simp)
      · intro ms' hms' _ w hw
        have hms'' : ms' = m := by simpa using hms'.symm
        subst hms''
        exact hintr w hw
      · intro sc' hsc'
        exact absurd hsc' (by simp)
    | some sc =>
      simp [SubVal.truthy, SubVal.typeofStr, applyNewJobCheckInterval] at h
      split_ifs at h with hrange1 hrange2
      simp at h
      obtain ⟨hlen, hname, hshare, hintr⟩ := hprops (some (sc * 1000)) h
      refine ⟨hlen, hname, hshare, ?_, ?_, ?_, hone⟩
      · intro hms
        exact absurd hms (by simp)
      · intro ms' _ hsec
        exact absurd hsec (by simp)
      · intro sc' hsc' w hw
        have hsc'' : sc' = sc := by simpa using hsc'.symm
        subst hsc''
        exact hintr w hw

/-- Witness for C9 (amended): a subscribe with empty options and a
config interval of `3000` constructs one worker polling at `3000`. -/
theorem subscribe_registers_workers_witness :
    ([(⟨"q", some 3000⟩ : WorkerConfig)]).length = 1 ∧
    (∀ w ∈ ([(⟨"q", some 3000⟩ : WorkerConfig)]), w.interval = some 3000) := by
  have h := subscribe_registers_workers (some 3000) "q" {} [⟨"q", some 3000⟩] rfl
  refine ⟨?_, h.2.2.2.1 rfl rfl⟩
  rw [h.1]
  decide

end PgBoss
